import Mathlib

/-!
Shallow embedding of the storage-health-monitor client node
(`src/client_node/disk_monitor.py` and `src/client_node/utils.py`).

External effects (subprocess spawns, psutil queries, the clock, the staging
directory name chosen by `tempfile.mkdtemp`) are supplied through an
environment record `Env`; the file system touched by the run is modelled as a
partial map from paths to file contents.  A Python exception that escapes a
function is modelled with `Except.error` carrying `str(e)`.
-/

set_option autoImplicit false

universe u v

/-- Outcome of spawning an external process via `subprocess.run`: either the
process completed with an exit code and captured text streams, or the spawn
raised `FileNotFoundError` (binary absent from `PATH`), or some other
exception was raised (for the SMART probe this includes
`subprocess.TimeoutExpired` when the 20-second bound elapses); `msg` models
`str(e)`, which Python does not guarantee to be non-empty. -/
inductive SpawnOutcome where
  | completed (returncode : Int) (stdout stderr : String)
  | fileNotFound
  | raised (msg : String)
  deriving DecidableEq, Repr

/-- Python `str.strip()` with no argument: remove leading and trailing
whitespace. -/
def pyStrip (s : String) : String :=
  String.mk (((s.data.dropWhile Char.isWhitespace).reverse.dropWhile Char.isWhitespace).reverse)

/-- Helper for `pySplitlines`, accumulating the current line in reverse. -/
def splitlinesAux : List Char → List Char → List String
  | [], acc => if acc.isEmpty then [] else [String.mk acc.reverse]
  | c :: rest, acc =>
    if c = '\n' then String.mk acc.reverse :: splitlinesAux rest []
    else splitlinesAux rest (c :: acc)

/-- Python `str.splitlines()` restricted to the newline character (the only
line terminator `lsblk` emits); like Python, it yields no final empty line. -/
def pySplitlines (s : String) : List String := splitlinesAux s.data []

/-- Helper for `pySplitWs`, accumulating the current token in reverse. -/
def splitWsAux : List Char → List Char → List String
  | [], acc => if acc.isEmpty then [] else [String.mk acc.reverse]
  | c :: rest, acc =>
    if c.isWhitespace then
      if acc.isEmpty then splitWsAux rest []
      else String.mk acc.reverse :: splitWsAux rest []
    else splitWsAux rest (c :: acc)

/-- Python `str.split()` with no argument: split on runs of whitespace,
producing no empty tokens. -/
def pySplitWs (s : String) : List String := splitWsAux s.data []

/-- Test whether `pat` is an initial segment of `l`. -/
def listStartsWith : List Char → List Char → Bool
  | [], _ => true
  | _ :: _, [] => false
  | p :: ps, c :: cs => p = c && listStartsWith ps cs

/-- Test whether `pat` occurs contiguously inside `l`. -/
def listInfixOf (pat : List Char) : List Char → Bool
  | [] => pat.isEmpty
  | c :: rest => listStartsWith pat (c :: rest) || listInfixOf pat rest

/-- Python substring test `pat in s`. -/
def pyIn (pat s : String) : Bool := listInfixOf pat.data s.data

/-- Python `str.rstrip("/")`. -/
def pyRstripSlash (s : String) : String :=
  String.mk ((s.data.reverse.dropWhile (fun c => c = '/')).reverse)

/-- Python `str.replace(":", "-")`; for a one-character pattern and
replacement this is a character map. -/
def replaceColons (s : String) : String :=
  String.mk (s.data.map (fun c => if c = ':' then '-' else c))

/-- Directory component of a path: everything up to and including the last
slash.  Used to state that the temporary path of the atomic write is a
sibling of the final path (same directory). -/
def dirOf (p : String) : String :=
  String.mk ((p.data.reverse.dropWhile (fun c => c != '/')).reverse)

/-- Python `os.path.basename`: everything after the last slash. -/
def baseNameOf (p : String) : String :=
  String.mk ((p.data.reverse.takeWhile (fun c => c != '/')).reverse)

/-- A file-system fragment: a partial map from absolute paths to file
contents of type `α`. -/
abbrev FS (α : Type u) : Type u := String → Option α

/-- Point update of a file-system fragment (writing, overwriting, or with
`none` deleting a file). -/
def fsSet {α : Type u} (fs : FS α) (p : String) (v : Option α) : FS α :=
  fun q => if q = p then v else fs q

/-- `utils.write_json_atomic(path, data)` (utils.py lines 24-28): serialize
`data`, write the encoding to `path + ".tmp"`, then `os.replace` the
temporary file onto `path` (an atomic rename that also removes the
temporary name).  `json.dump` is modelled by the `serialize` parameter. -/
def write_json_atomic {α : Type u} {β : Type v} (serialize : α → β)
    (path : String) (data : α) (fs : FS β) : FS β :=
  let tmp := path ++ ".tmp"
  let fs1 := fsSet fs tmp (some (serialize data))
  fsSet (fsSet fs1 path (fs1 tmp)) tmp none

/-- File-system state of `write_json_atomic` at the interruption point of the
atomicity property: after the temporary file is fully written (lines 26-27)
but before `os.replace` runs (line 28). -/
def write_json_atomic_tmpWritten {α : Type u} {β : Type v} (serialize : α → β)
    (path : String) (data : α) (fs : FS β) : FS β :=
  fsSet fs (path ++ ".tmp") (some (serialize data))

/-- Result dictionary of `smart_check`: either the completed-probe dict with
keys `device`/`returncode`/`stdout`/`stderr`/`status` (line 57), or the
error dict with keys `device`/`error` (lines 59 and 61) — the latter is what
the spec calls an UNAVAILABLE HealthResult. -/
inductive SmartResult where
  | result (device : String) (returncode : Int) (stdout stderr status : String)
  | errDict (device : String) (error : String)
  deriving DecidableEq, Repr

/-- Argument vector of the SMART probe invocation (line 52). -/
def smartctlArgs (device : String) : List String := ["smartctl", "-H", device]

/-- Timeout (in seconds) passed to the SMART probe invocation (line 52). -/
def smartctlTimeout : Nat := 20

/-- Condition on smartctl stdout recognized as a pass (line 54). -/
def hasPassedMarker (stdout : String) : Bool :=
  pyIn "PASSED" stdout ||
    pyIn "SMART overall-health self-assessment test result: PASSED" stdout

/-- `disk_monitor.smart_check(device)` (lines 49-61).  The whole body is
wrapped in try/except, with `FileNotFoundError` and then any other
`Exception` converted to the error dict, so no exception escapes. -/
def smart_check (device : String) (res : SpawnOutcome) : SmartResult :=
  match res with
  | .completed rc stdout stderr =>
      let status :=
        if rc = 0 then (if hasPassedMarker stdout then "OK" else "UNKNOWN")
        else "ERROR"
      .result device rc stdout stderr status
  | .fileNotFound => .errDict device "smartctl-not-installed"
  | .raised msg => .errDict device msg

/-- Abstract health status of a `smart_check` result, following the spec's
reading of the two dict shapes: the completed dict carries its `status`
string, the error dict is the UNAVAILABLE case. -/
def healthStatus : SmartResult → String
  | .result _ _ _ _ st => st
  | .errDict _ _ => "UNAVAILABLE"

/-- Error description carried by a `smart_check` result (`error` key of the
error dict); absent on the completed dict. -/
def errorDescOf : SmartResult → Option String
  | .result _ _ _ _ _ => none
  | .errDict _ e => some e

/-- Well-formedness of a HealthResult in the spec's sense: the completed dict
carries one of the three probe statuses (the error dict is always
well-formed: it is the UNAVAILABLE shape, with exactly the error
description populated). -/
def wellFormedHealth : SmartResult → Bool
  | .result _ _ _ _ st => st = "OK" || st = "UNKNOWN" || st = "ERROR"
  | .errDict _ _ => true

/-- Argument vector of the block-device listing invocation (line 40). -/
def lsblkArgs : List String := ["lsblk", "-ndo", "NAME,TYPE"]

/-- `disk_monitor.list_block_disks()` (lines 38-47).  The `subprocess.run`
call is NOT wrapped in try/except, so a spawn failure (absent binary or any
other spawn exception) propagates out of the function, modelled by
`Except.error`.  A completed run with non-zero exit code yields `[]`. -/
def list_block_disks (out : SpawnOutcome) : Except String (List String) :=
  match out with
  | .fileNotFound => .error "FileNotFoundError: lsblk"
  | .raised msg => .error msg
  | .completed rc stdout _ =>
    .ok (if rc = 0 then
      (pySplitlines stdout).foldl (fun disks line =>
        match pySplitWs (pyStrip line) with
        | [name, ty] => if ty = "disk" then disks ++ ["/dev/" ++ name] else disks
        | _ => disks) []
    else [])

/-- One mounted filesystem as reported by `psutil.disk_partitions(all=False)`. -/
structure RawMount where
  device : String
  mountpoint : String
  fstype : String
  opts : String
  deriving DecidableEq, Repr

/-- Outcome of `psutil.disk_usage(mountpoint)`: the capacity record, or a
raised `PermissionError` (the only exception the source handles, line 24). -/
inductive UsageOutcome where
  | ok (total used free : Nat) (percent : Rat)
  | permissionError
  deriving DecidableEq, Repr

/-- One entry of the report's `disk_partitions` list (lines 26-35). -/
structure PartitionUsage where
  device : String
  mountpoint : String
  fstype : String
  opts : String
  total : Nat
  used : Nat
  free : Nat
  percent : Rat
  deriving DecidableEq, Repr

/-- `disk_monitor.collect_disk_usage()` (lines 19-36): for each raw mount,
query its capacity; on `PermissionError` skip the mount (`continue`),
otherwise append the usage record, preserving enumeration order. -/
def collect_disk_usage (mounts : List RawMount) (query : String → UsageOutcome) :
    List PartitionUsage :=
  mounts.filterMap (fun p =>
    match query p.mountpoint with
    | .permissionError => none
    | .ok t u f pc =>
      some { device := p.device, mountpoint := p.mountpoint, fstype := p.fstype,
             opts := p.opts, total := t, used := u, free := f, percent := pc })

/-- The report document assembled by `run` (lines 69-75), tracked at field
granularity; the staged file's bytes are the JSON encoding of exactly this
record at write time. -/
structure Payload where
  collected_at : String
  host : String
  disk_partitions : List PartitionUsage
  smart : List SmartResult
  notes : List String
  deriving DecidableEq, Repr

/-- Severity of a log record emitted through the run's logger. -/
inductive LogLevel where
  | info
  | warning
  | error
  deriving DecidableEq, Repr

/-- One attempted external process invocation: its argument vector and the
timeout passed to `subprocess.run`, if any. -/
inductive ExtCall where
  | proc (argv : List String) (timeLimit : Option Nat)
  deriving DecidableEq, Repr

/-- The configuration document (`config.json`) as consumed by `run`:
required keys as fields, optional keys (`port`, `keep_local_copy`, read via
`cfg.get` with defaults 22 and False) as `Option`s. -/
structure Config where
  log_path : String
  monitoring_node_ip : String
  monitoring_node_user : String
  monitoring_node_receive_dir : String
  port : Option Int
  keep_local_copy : Option Bool

/-- The run's environment: everything the operating system supplies.
`writeOsError = some msg` models an `OSError` raised while writing or
renaming the staged report file. -/
structure Env where
  hostname : String
  now : String
  tmpdir : String
  mounts : List RawMount
  usage : String → UsageOutcome
  lsblk : SpawnOutcome
  smartctl : String → SpawnOutcome
  sshMkdir : SpawnOutcome
  scp : SpawnOutcome
  writeOsError : Option String

/-- `ssh` command vector preparing the remote directory (lines 103-104). -/
def mkdirCmd (port : Int) (user ip subdir : String) : List String :=
  ["ssh", "-o", "StrictHostKeyChecking=no", "-p", toString port,
   user ++ "@" ++ ip, "mkdir -p " ++ subdir ++ " && chmod 750 " ++ subdir]

/-- `scp` command vector transferring the staged file (lines 112-113). -/
def scpCmd (port : Int) (localPath user ip subdir : String) : List String :=
  ["scp", "-o", "StrictHostKeyChecking=no", "-P", toString port,
   localPath, user ++ "@" ++ ip ++ ":" ++ subdir ++ "/"]

/-- Observable result of the delivery phase. -/
structure DeliveryResult where
  outcome : Except String Unit
  logs : List (LogLevel × String)
  notes : List String
  trace : List ExtCall

/-- Lines 94-119 of `disk_monitor.run`: ensure the remote per-host directory
exists over ssh, then scp the staged file.  A spawn exception is not caught
and propagates (`.error`); a non-zero exit code of either tool is recorded
in the log and as a note and is non-fatal (`.ok`). -/
def deliver (env : Env) (cfg : Config) (localPath : String) : DeliveryResult :=
  let monitorPort := (cfg.port).getD 22
  let remoteSubdir := pyRstripSlash cfg.monitoring_node_receive_dir ++ "/" ++ env.hostname
  let mkCmd := mkdirCmd monitorPort cfg.monitoring_node_user cfg.monitoring_node_ip remoteSubdir
  let preLogs := [(LogLevel.info, "Ensuring remote directory exists: " ++ remoteSubdir)]
  match env.sshMkdir with
  | .fileNotFound =>
      { outcome := .error "FileNotFoundError: ssh", logs := preLogs, notes := [],
        trace := [.proc mkCmd none] }
  | .raised m =>
      { outcome := .error m, logs := preLogs, notes := [], trace := [.proc mkCmd none] }
  | .completed mrc _ mstderr =>
    if mrc ≠ 0 then
      { outcome := .ok (),
        logs := preLogs ++
          [(LogLevel.warning,
            "Remote mkdir failed: rc=" ++ toString mrc ++ " stderr=" ++ pyStrip mstderr)],
        notes := ["remote_mkdir_failed"], trace := [.proc mkCmd none] }
    else
      let sCmd := scpCmd monitorPort localPath cfg.monitoring_node_user
        cfg.monitoring_node_ip remoteSubdir
      match env.scp with
      | .fileNotFound =>
          { outcome := .error "FileNotFoundError: scp", logs := preLogs, notes := [],
            trace := [.proc mkCmd none, .proc sCmd none] }
      | .raised m =>
          { outcome := .error m, logs := preLogs, notes := [],
            trace := [.proc mkCmd none, .proc sCmd none] }
      | .completed src _ sstderr =>
        if src ≠ 0 then
          { outcome := .ok (),
            logs := preLogs ++
              [(LogLevel.error,
                "SCP failed: rc=" ++ toString src ++ " stderr=" ++ pyStrip sstderr)],
            notes := ["scp_failed"], trace := [.proc mkCmd none, .proc sCmd none] }
        else
          { outcome := .ok (), logs := preLogs ++ [(LogLevel.info, "SCP succeeded")],
            notes := [], trace := [.proc mkCmd none, .proc sCmd none] }

/-- Fixed local archive directory used when `keep_local_copy` is set
(line 122, `os.path.expanduser` applied). -/
def sentPayloadsDir : String := "~/client_node/sent_payloads"

/-- Lines 120-126 of `disk_monitor.run`: either copy the staged file into the
archive directory (`shutil.copy`) or delete it (`os.remove`). -/
def finalizeLocal (cfg : Config) (localPath : String) (fs : FS Payload) : FS Payload :=
  if (cfg.keep_local_copy).getD false then
    fsSet fs (sentPayloadsDir ++ "/" ++ baseNameOf localPath) (fs localPath)
  else
    fsSet fs localPath none

/-- Observable result of the try-block of `run` (lines 88-126). -/
structure BodyResult where
  outcome : Except String Unit
  logs : List (LogLevel × String)
  notes : List String
  persisted : Option Payload
  fs : FS Payload
  trace : List ExtCall

/-- Try-block of `disk_monitor.run` (lines 88-126): write the report
atomically (a raised `OSError` propagates), then deliver, then apply the
local-retention step; `persisted` records the document whose bytes the
Durable Writer flushed to the final path. -/
def runBody (env : Env) (cfg : Config) (payload1 : Payload) (localPath : String)
    (fs0 : FS Payload) : BodyResult :=
  match env.writeOsError with
  | some msg =>
      { outcome := .error msg, logs := [], notes := payload1.notes, persisted := none,
        fs := fs0, trace := [] }
  | none =>
    let fs1 := write_json_atomic id localPath payload1 fs0
    let wlog := [(LogLevel.info, "Wrote payload to " ++ localPath)]
    let d := deliver env cfg localPath
    match d.outcome with
    | .error e =>
        { outcome := .error e, logs := wlog ++ d.logs, notes := payload1.notes ++ d.notes,
          persisted := some payload1, fs := fs1, trace := d.trace }
    | .ok _ =>
        { outcome := .ok (), logs := wlog ++ d.logs, notes := payload1.notes ++ d.notes,
          persisted := some payload1, fs := finalizeLocal cfg localPath fs1,
          trace := d.trace }

/-- Note appended when `disks` is empty (line 80). -/
def enumEmptyNote : String := "no-block-disks-found-or-lsblk-failed"

/-- The payload as first assembled (lines 69-75). -/
def runPayload0 (env : Env) : Payload :=
  { collected_at := env.now, host := env.hostname,
    disk_partitions := collect_disk_usage env.mounts env.usage,
    smart := [], notes := [] }

/-- The payload after the SMART phase (lines 78-84): the enumeration-empty
note, or one `smart_check` result per listed disk. -/
def runPayload1 (env : Env) (disks : List String) : Payload :=
  if disks.isEmpty then
    { runPayload0 env with notes := (runPayload0 env).notes ++ [enumEmptyNote] }
  else
    { runPayload0 env with
      smart := disks.map (fun d => smart_check d (env.smartctl d)) }

/-- Staged report filename (line 89). -/
def runFilename (env : Env) : String :=
  env.hostname ++ "_" ++ replaceColons env.now ++ ".json"

/-- Staged report path inside the run's staging directory (line 90). -/
def runLocalPath (env : Env) : String := env.tmpdir ++ "/" ++ runFilename env

/-- Observable result of one whole run. -/
structure RunResult where
  outcome : Except String Unit
  logs : List (LogLevel × String)
  notes : List String
  smart : List SmartResult
  persisted : Option Payload
  fs : FS Payload
  trace : List ExtCall
  tmpdirCreated : Bool
  tmpdirRemoved : Bool

/-- `disk_monitor.run()` (lines 63-129).  `list_block_disks` is called before
the staging directory exists, so a spawn exception there aborts the run with
nothing staged; afterwards the try/finally guarantees `shutil.rmtree` of the
staging directory on both the normal and the exceptional exit, and only the
normal exit logs "Run finished." and terminates the process successfully. -/
def run (env : Env) (cfg : Config) : RunResult :=
  let logs0 := [(LogLevel.info, "Starting disk monitor run on host " ++ env.hostname)]
  match list_block_disks env.lsblk with
  | .error e =>
      { outcome := .error e, logs := logs0, notes := (runPayload0 env).notes,
        smart := (runPayload0 env).smart, persisted := none, fs := fun _ => none,
        trace := [.proc lsblkArgs none], tmpdirCreated := false, tmpdirRemoved := false }
  | .ok disks =>
      let payload1 := runPayload1 env disks
      let trace1 := ExtCall.proc lsblkArgs none ::
        disks.map (fun d => ExtCall.proc (smartctlArgs d) (some smartctlTimeout))
      let body := runBody env cfg payload1 (runLocalPath env) (fun _ => none)
      let fsFinal : FS Payload :=
        fun p => if p.startsWith (env.tmpdir ++ "/") then none else body.fs p
      match body.outcome with
      | .error e =>
          { outcome := .error e, logs := logs0 ++ body.logs, notes := body.notes,
            smart := payload1.smart, persisted := body.persisted, fs := fsFinal,
            trace := trace1 ++ body.trace, tmpdirCreated := true, tmpdirRemoved := true }
      | .ok _ =>
          { outcome := .ok (), logs := logs0 ++ body.logs ++ [(LogLevel.info, "Run finished.")],
            notes := body.notes, smart := payload1.smart, persisted := body.persisted,
            fs := fsFinal, trace := trace1 ++ body.trace,
            tmpdirCreated := true, tmpdirRemoved := true }

/-! Helper lemmas shared by the claim proofs. -/

/-- A path never equals its own temporary sibling (they differ in length). -/
lemma path_ne_tmp (p : String) : p ≠ p ++ ".tmp" := by
  intro h
  have h2 := congrArg String.length h
  simp [String.length_append] at h2
  exact absurd h2 (by decide)

/-- Appending the ".tmp" suffix does not change the directory component, so
the temporary file is a sibling of the final path. -/
lemma dirOf_tmp (p : String) : dirOf (p ++ ".tmp") = dirOf p := by
  obtain ⟨l⟩ := p
  show String.mk (((l ++ ['.','t','m','p']).reverse.dropWhile (fun c => c != '/')).reverse) = _
  rw [List.reverse_append]
  have h4 : List.dropWhile (fun c => c != '/')
        ((['.','t','m','p'] : List Char).reverse ++ l.reverse)
      = List.dropWhile (fun c => c != '/') l.reverse := by
    have hr : (['.','t','m','p'] : List Char).reverse = ['p','m','t','.'] := by decide
    rw [hr]
    simp only [List.cons_append]
    rw [List.dropWhile_cons, if_pos (by decide), List.dropWhile_cons, if_pos (by decide),
        List.dropWhile_cons, if_pos (by decide), List.dropWhile_cons, if_pos (by decide),
        List.nil_append]
  rw [h4]
  rfl

/-- When the write raises no OSError, the try-block is the delivery phase
preceded by the persist step: the body's outcome is the delivery outcome and
the persisted document is exactly the payload passed in. -/
lemma runBody_eq (env : Env) (cfg : Config) (payload1 : Payload) (localPath : String)
    (fs0 : FS Payload) (hw : env.writeOsError = none) :
    runBody env cfg payload1 localPath fs0 =
      { outcome := (deliver env cfg localPath).outcome,
        logs := [(LogLevel.info, "Wrote payload to " ++ localPath)] ++
          (deliver env cfg localPath).logs,
        notes := payload1.notes ++ (deliver env cfg localPath).notes,
        persisted := some payload1,
        fs := match (deliver env cfg localPath).outcome with
          | .error _ => write_json_atomic id localPath payload1 fs0
          | .ok _ => finalizeLocal cfg localPath (write_json_atomic id localPath payload1 fs0),
        trace := (deliver env cfg localPath).trace } := by
  simp only [runBody, hw]
  cases hdo : (deliver env cfg localPath).outcome with
  | error e => simp [hdo]
  | ok u => cases u; simp [hdo]

/-- Shape of a whole run whose enumeration succeeded and whose try-block
finished without an exception. -/
lemma run_eq_ok (env : Env) (cfg : Config) (disks : List String)
    (hl : list_block_disks env.lsblk = .ok disks)
    (hb : (runBody env cfg (runPayload1 env disks) (runLocalPath env) (fun _ => none)).outcome = .ok ()) :
    run env cfg =
      { outcome := .ok (),
        logs := [(LogLevel.info, "Starting disk monitor run on host " ++ env.hostname)] ++
          (runBody env cfg (runPayload1 env disks) (runLocalPath env) (fun _ => none)).logs ++
          [(LogLevel.info, "Run finished.")],
        notes := (runBody env cfg (runPayload1 env disks) (runLocalPath env) (fun _ => none)).notes,
        smart := (runPayload1 env disks).smart,
        persisted := (runBody env cfg (runPayload1 env disks) (runLocalPath env) (fun _ => none)).persisted,
        fs := fun p => if p.startsWith (env.tmpdir ++ "/") then none
          else (runBody env cfg (runPayload1 env disks) (runLocalPath env) (fun _ => none)).fs p,
        trace := (ExtCall.proc lsblkArgs none ::
          disks.map (fun d => ExtCall.proc (smartctlArgs d) (some smartctlTimeout))) ++
          (runBody env cfg (runPayload1 env disks) (runLocalPath env) (fun _ => none)).trace,
        tmpdirCreated := true, tmpdirRemoved := true } := by
  simp only [run, hl]
  split
  · rename_i e heq
    rw [hb] at heq
    cases heq
  · rfl

/-- Shape of a whole run whose enumeration succeeded and whose try-block
raised: the exception propagates (no "Run finished." log, error outcome) but
the finally-clause still removes the staging directory. -/
lemma run_eq_err (env : Env) (cfg : Config) (disks : List String) (e : String)
    (hl : list_block_disks env.lsblk = .ok disks)
    (hb : (runBody env cfg (runPayload1 env disks) (runLocalPath env) (fun _ => none)).outcome = .error e) :
    run env cfg =
      { outcome := .error e,
        logs := [(LogLevel.info, "Starting disk monitor run on host " ++ env.hostname)] ++
          (runBody env cfg (runPayload1 env disks) (runLocalPath env) (fun _ => none)).logs,
        notes := (runBody env cfg (runPayload1 env disks) (runLocalPath env) (fun _ => none)).notes,
        smart := (runPayload1 env disks).smart,
        persisted := (runBody env cfg (runPayload1 env disks) (runLocalPath env) (fun _ => none)).persisted,
        fs := fun p => if p.startsWith (env.tmpdir ++ "/") then none
          else (runBody env cfg (runPayload1 env disks) (runLocalPath env) (fun _ => none)).fs p,
        trace := (ExtCall.proc lsblkArgs none ::
          disks.map (fun d => ExtCall.proc (smartctlArgs d) (some smartctlTimeout))) ++
          (runBody env cfg (runPayload1 env disks) (runLocalPath env) (fun _ => none)).trace,
        tmpdirCreated := true, tmpdirRemoved := true } := by
  simp only [run, hl]
  split
  · rename_i e2 heq
    rw [hb] at heq
    cases heq
    rfl
  · rename_i u heq
    rw [hb] at heq
    cases heq

/-- Delivery phase when the remote mkdir succeeds and scp exits non-zero:
error log, "scp_failed" note, non-fatal outcome. -/
lemma deliver_scp_fail (env : Env) (cfg : Config) (lp : String)
    (mso msE : String) (hm : env.sshMkdir = .completed 0 mso msE)
    (src : Int) (sso ssE : String) (hs : env.scp = .completed src sso ssE) (hsrc : src ≠ 0) :
    deliver env cfg lp =
      { outcome := .ok (),
        logs := [(LogLevel.info, "Ensuring remote directory exists: " ++
            (pyRstripSlash cfg.monitoring_node_receive_dir ++ "/" ++ env.hostname)),
          (LogLevel.error, "SCP failed: rc=" ++ toString src ++ " stderr=" ++ pyStrip ssE)],
        notes := ["scp_failed"],
        trace := [.proc (mkdirCmd ((cfg.port).getD 22) cfg.monitoring_node_user
            cfg.monitoring_node_ip (pyRstripSlash cfg.monitoring_node_receive_dir ++ "/" ++ env.hostname)) none,
          .proc (scpCmd ((cfg.port).getD 22) lp cfg.monitoring_node_user
            cfg.monitoring_node_ip (pyRstripSlash cfg.monitoring_node_receive_dir ++ "/" ++ env.hostname)) none] } := by
  simp only [deliver, hm, hs]
  simp [hsrc]

/-- Delivery phase when the remote mkdir exits non-zero: warning log,
"remote_mkdir_failed" note, and no scp invocation in the trace. -/
lemma deliver_mkdir_fail (env : Env) (cfg : Config) (lp : String)
    (mrc : Int) (mso msE : String) (hm : env.sshMkdir = .completed mrc mso msE) (hmrc : mrc ≠ 0) :
    deliver env cfg lp =
      { outcome := .ok (),
        logs := [(LogLevel.info, "Ensuring remote directory exists: " ++
            (pyRstripSlash cfg.monitoring_node_receive_dir ++ "/" ++ env.hostname)),
          (LogLevel.warning, "Remote mkdir failed: rc=" ++ toString mrc ++ " stderr=" ++ pyStrip msE)],
        notes := ["remote_mkdir_failed"],
        trace := [.proc (mkdirCmd ((cfg.port).getD 22) cfg.monitoring_node_user
            cfg.monitoring_node_ip (pyRstripSlash cfg.monitoring_node_receive_dir ++ "/" ++ env.hostname)) none] } := by
  simp only [deliver, hm]
  simp [hmrc]

/-! Claim theorems. -/

/-- Claim C1, counterexample: `smart_check` converts a caught exception whose
message is empty (Python allows `str(e) = ""`) into the error dict — the
spec's UNAVAILABLE status — with an EMPTY error description, refuting "an
UNAVAILABLE result always carries a non-empty error description". -/
theorem c1_counterexample :
    healthStatus (smart_check "/dev/sda" (SpawnOutcome.raised "")) = "UNAVAILABLE"
  ∧ errorDescOf (smart_check "/dev/sda" (SpawnOutcome.raised "")) = some "" :=
  ⟨rfl, rfl⟩

/-- Claim C1 (amended): the probe status is derived exactly as: exit code 0
with a recognized passed marker gives OK; exit code 0 without the marker
gives UNKNOWN; non-zero exit code gives ERROR; tool binary not found gives
UNAVAILABLE with the fixed non-empty description "smartctl-not-installed";
any other caught exception also gives UNAVAILABLE carrying that exception's
message (non-empty only when the message is).  Every invocation returns
exactly one of the four statuses. -/
theorem c1_smart_status_derivation (d : String) (o : SpawnOutcome) :
    (healthStatus (smart_check d o) = "OK" ∨ healthStatus (smart_check d o) = "UNKNOWN" ∨
     healthStatus (smart_check d o) = "ERROR" ∨ healthStatus (smart_check d o) = "UNAVAILABLE")
  ∧ (∀ rc out err, o = .completed rc out err →
       ((rc = 0 ∧ hasPassedMarker out = true) → healthStatus (smart_check d o) = "OK")
     ∧ ((rc = 0 ∧ hasPassedMarker out = false) → healthStatus (smart_check d o) = "UNKNOWN")
     ∧ (rc ≠ 0 → healthStatus (smart_check d o) = "ERROR"))
  ∧ (o = .fileNotFound →
       healthStatus (smart_check d o) = "UNAVAILABLE"
     ∧ errorDescOf (smart_check d o) = some "smartctl-not-installed")
  ∧ (∀ msg, o = .raised msg →
       healthStatus (smart_check d o) = "UNAVAILABLE"
     ∧ errorDescOf (smart_check d o) = some msg) := by
  refine ⟨?_, ?_, ?_, ?_⟩
  · cases o with
    | completed rc out err =>
      by_cases hrc : rc = 0
      · by_cases hmk : hasPassedMarker out <;>
          simp [smart_check, healthStatus, hrc, hmk]
      · simp [smart_check, healthStatus, hrc]
    | fileNotFound => simp [smart_check, healthStatus]
    | raised msg => simp [smart_check, healthStatus]
  · rintro rc out err rfl
    refine ⟨?_, ?_, ?_⟩
    · rintro ⟨hrc, hmk⟩; simp [smart_check, healthStatus, hrc, hmk]
    · rintro ⟨hrc, hmk⟩; simp [smart_check, healthStatus, hrc, hmk]
    · intro hrc; simp [smart_check, healthStatus, hrc]
  · rintro rfl; exact ⟨rfl, rfl⟩
  · rintro msg rfl; exact ⟨rfl, rfl⟩

/-- Witness for C1: at the concrete input "tool binary absent", the status is
UNAVAILABLE and the description is the fixed non-empty marker. -/
theorem c1_witness :
    healthStatus (smart_check "/dev/sda" SpawnOutcome.fileNotFound) = "UNAVAILABLE"
  ∧ errorDescOf (smart_check "/dev/sda" SpawnOutcome.fileNotFound) =
      some "smartctl-not-installed" :=
  (c1_smart_status_derivation "/dev/sda" SpawnOutcome.fileNotFound).2.2.1 rfl

/-- Claim C2: the durable write serializes the report, writes it to the
sibling temporary path `path ++ ".tmp"` in the same directory, then
atomically renames it onto the final path; interrupted after the temporary
write but before the rename, a fresh final path holds no file; completed,
the final path holds exactly the serialized report (and the temporary name
is gone). -/
theorem c2_write_atomicity {α β : Type} (serialize : α → β) (path : String)
    (data : α) (fs : FS β) (hfresh : fs path = none) :
    write_json_atomic serialize path data fs path = some (serialize data)
  ∧ write_json_atomic serialize path data fs (path ++ ".tmp") = none
  ∧ write_json_atomic_tmpWritten serialize path data fs path = none
  ∧ dirOf (path ++ ".tmp") = dirOf path := by
  have hne := path_ne_tmp path
  refine ⟨?_, ?_, ?_, dirOf_tmp path⟩
  · simp [write_json_atomic, fsSet, hne]
  · simp [write_json_atomic, fsSet]
  · simp [write_json_atomic_tmpWritten, fsSet, hne, hfresh]

/-- Witness for C2 at a concrete path, document and empty file system. -/
theorem c2_witness :
    ((fun _ => (none : Option String)) "d/r.json" = none)
  ∧ (write_json_atomic toString "d/r.json" (7 : Nat) (fun _ => none) "d/r.json" = some "7"
   ∧ write_json_atomic toString "d/r.json" (7 : Nat) (fun _ => none) ("d/r.json" ++ ".tmp") = none
   ∧ write_json_atomic_tmpWritten toString "d/r.json" (7 : Nat) (fun _ => none) "d/r.json" = none
   ∧ dirOf ("d/r.json" ++ ".tmp") = dirOf "d/r.json") :=
  ⟨rfl, c2_write_atomicity toString "d/r.json" 7 (fun _ => none) rfl⟩

/-- Claim C3: for every device and every behavior of the probe process
(completion, absent binary, timeout or any other raised exception),
`smart_check` terminates in a well-formed HealthResult carrying one of the
four statuses — no exception escapes — and an unexpected failure is
converted to the UNAVAILABLE shape carrying the failure description. -/
theorem c3_probe_never_raises (d : String) (o : SpawnOutcome) :
    wellFormedHealth (smart_check d o) = true
  ∧ (healthStatus (smart_check d o) = "OK" ∨ healthStatus (smart_check d o) = "UNKNOWN" ∨
     healthStatus (smart_check d o) = "ERROR" ∨ healthStatus (smart_check d o) = "UNAVAILABLE")
  ∧ (∀ msg, o = .raised msg →
       smart_check d o = .errDict d msg
     ∧ healthStatus (smart_check d o) = "UNAVAILABLE") := by
  refine ⟨?_, ?_, ?_⟩
  · cases o with
    | completed rc out err =>
      by_cases hrc : rc = 0
      · by_cases hmk : hasPassedMarker out <;>
          simp [smart_check, wellFormedHealth, hrc, hmk]
      · simp [smart_check, wellFormedHealth, hrc]
    | fileNotFound => rfl
    | raised msg => rfl
  · cases o with
    | completed rc out err =>
      by_cases hrc : rc = 0
      · by_cases hmk : hasPassedMarker out <;>
          simp [smart_check, healthStatus, hrc, hmk]
      · simp [smart_check, healthStatus, hrc]
    | fileNotFound => simp [smart_check, healthStatus]
    | raised msg => simp [smart_check, healthStatus]
  · rintro msg rfl; exact ⟨rfl, rfl⟩

/-- Witness for C3 at a concrete raised exception (a timeout message). -/
theorem c3_witness :
    wellFormedHealth (smart_check "/dev/sda" (SpawnOutcome.raised "timed out after 20 seconds")) = true
  ∧ smart_check "/dev/sda" (SpawnOutcome.raised "timed out after 20 seconds") =
      SmartResult.errDict "/dev/sda" "timed out after 20 seconds"
  ∧ healthStatus (smart_check "/dev/sda" (SpawnOutcome.raised "timed out after 20 seconds")) =
      "UNAVAILABLE" :=
  ⟨(c3_probe_never_raises "/dev/sda" (SpawnOutcome.raised "timed out after 20 seconds")).1,
   ((c3_probe_never_raises "/dev/sda" (SpawnOutcome.raised "timed out after 20 seconds")).2.2
      "timed out after 20 seconds" rfl).1,
   ((c3_probe_never_raises "/dev/sda" (SpawnOutcome.raised "timed out after 20 seconds")).2.2
      "timed out after 20 seconds" rfl).2⟩

/-- Shared concrete configuration for the witness runs. -/
def cfgW : Config :=
  { log_path := "/var/log/client_disk_monitor.log", monitoring_node_ip := "10.0.0.2",
    monitoring_node_user := "mon", monitoring_node_receive_dir := "/srv/reports/",
    port := none, keep_local_copy := none }

/-- Environment whose block-device listing tool is absent from PATH. -/
def envC4 : Env :=
  { hostname := "h1", now := "2026-01-01T00:00:00Z", tmpdir := "/tmp/client_disk_c4",
    mounts := [], usage := fun _ => .permissionError,
    lsblk := .fileNotFound, smartctl := fun _ => .fileNotFound,
    sshMkdir := .completed 0 "" "", scp := .completed 0 "" "", writeOsError := none }

/-- Claim C4, counterexample: with the listing tool binary absent,
`list_block_disks` does not return an empty sequence — the spawn exception
propagates — and the whole run aborts before the staging phase, refuting
"unavailable ... returns an empty sequence and this is not fatal". -/
theorem c4_counterexample :
    list_block_disks SpawnOutcome.fileNotFound = .error "FileNotFoundError: lsblk"
  ∧ (run envC4 cfgW).outcome = .error "FileNotFoundError: lsblk"
  ∧ (run envC4 cfgW).tmpdirCreated = false
  ∧ (run envC4 cfgW).persisted = none :=
  ⟨rfl, rfl, rfl, rfl⟩

/-- Claim C4 (amended): if the listing tool runs but exits non-zero,
enumeration returns an empty sequence and the run is not aborted (an absent
tool binary instead raises and is fatal); whenever the sequence of
qualifying disks is empty and the write raises no OSError, the run still
persists a valid report whose smart sequence is empty and whose notes
contain the enumeration-empty entry, which also ends up in the in-memory
notes. -/
theorem c4_amended (env : Env) (cfg : Config)
    (hl : list_block_disks env.lsblk = .ok [])
    (hw : env.writeOsError = none) :
    (∀ (rc : Int) (out err : String), rc ≠ 0 →
       list_block_disks (.completed rc out err) = .ok [])
  ∧ (run env cfg).tmpdirCreated = true
  ∧ (run env cfg).persisted = some (runPayload1 env [])
  ∧ (runPayload1 env []).smart = []
  ∧ enumEmptyNote ∈ (runPayload1 env []).notes
  ∧ enumEmptyNote ∈ (run env cfg).notes := by
  have hbody := runBody_eq env cfg (runPayload1 env []) (runLocalPath env) (fun _ => none) hw
  refine ⟨?_, ?_, ?_, rfl, ?_, ?_⟩
  · intro rc out err hrc
    simp [list_block_disks, hrc]
  · simp only [run, hl]
    split <;> rfl
  · simp only [run, hl]
    split <;> (rw [hbody])
  · simp [runPayload1, runPayload0]
  · have hnotes : (run env cfg).notes =
        (runBody env cfg (runPayload1 env []) (runLocalPath env) (fun _ => none)).notes := by
      simp only [run, hl]
      split <;> rfl
    rw [hnotes, hbody]
    simp [runPayload1, runPayload0]

/-- Environment whose listing tool runs but exits non-zero. -/
def envW4 : Env :=
  { hostname := "h1", now := "2026-01-01T00:00:00Z", tmpdir := "/tmp/client_disk_w4",
    mounts := [], usage := fun _ => .permissionError,
    lsblk := .completed 1 "" "lsblk: failed", smartctl := fun _ => .fileNotFound,
    sshMkdir := .completed 0 "" "", scp := .completed 0 "" "", writeOsError := none }

/-- Witness for C4 on a concrete run whose listing tool exits non-zero. -/
theorem c4_witness :
    (run envW4 cfgW).tmpdirCreated = true
  ∧ (run envW4 cfgW).persisted = some (runPayload1 envW4 [])
  ∧ enumEmptyNote ∈ (run envW4 cfgW).notes :=
  ⟨(c4_amended envW4 cfgW rfl rfl).2.1, (c4_amended envW4 cfgW rfl rfl).2.2.1,
   (c4_amended envW4 cfgW rfl rfl).2.2.2.2.2⟩

/-- Claim C5: when the transfer tool exits non-zero (and enumeration and the
write succeeded), the run is not aborted: the "scp_failed" note is appended
to the in-memory report, an error-level log entry is produced, the closing
stage still runs ("Run finished." is logged, the staging directory is
removed) and the process exits successfully. -/
theorem c5_scp_failure_nonfatal (env : Env) (cfg : Config) (disks : List String)
    (hl : list_block_disks env.lsblk = .ok disks)
    (hw : env.writeOsError = none)
    (mso msE : String) (hm : env.sshMkdir = .completed 0 mso msE)
    (src : Int) (sso ssE : String) (hs : env.scp = .completed src sso ssE) (hsrc : src ≠ 0) :
    (run env cfg).outcome = .ok ()
  ∧ "scp_failed" ∈ (run env cfg).notes
  ∧ (LogLevel.error, "SCP failed: rc=" ++ toString src ++ " stderr=" ++ pyStrip ssE) ∈ (run env cfg).logs
  ∧ (LogLevel.info, "Run finished.") ∈ (run env cfg).logs
  ∧ (run env cfg).tmpdirRemoved = true := by
  have hdel := deliver_scp_fail env cfg (runLocalPath env) mso msE hm src sso ssE hs hsrc
  have hbody := runBody_eq env cfg (runPayload1 env disks) (runLocalPath env) (fun _ => none) hw
  rw [hdel] at hbody
  have hbo : (runBody env cfg (runPayload1 env disks) (runLocalPath env) (fun _ => none)).outcome = .ok () := by
    rw [hbody]
  have hrun := run_eq_ok env cfg disks hl hbo
  rw [hrun]
  refine ⟨rfl, ?_, ?_, ?_, rfl⟩
  · rw [hbody]; simp
  · rw [hbody]; simp
  · rw [hbody]; simp

/-- Environment whose transfer tool always exits non-zero. -/
def envW5 : Env :=
  { hostname := "h1", now := "2026-01-01T00:00:00Z", tmpdir := "/tmp/client_disk_w5",
    mounts := [], usage := fun _ => .permissionError,
    lsblk := .completed 0 "" "", smartctl := fun _ => .fileNotFound,
    sshMkdir := .completed 0 "" "", scp := .completed 1 "" "lost connection",
    writeOsError := none }

/-- Witness for C5 on a concrete run with a failing transfer tool. -/
theorem c5_witness :
    (run envW5 cfgW).outcome = .ok ()
  ∧ "scp_failed" ∈ (run envW5 cfgW).notes
  ∧ (LogLevel.error, "SCP failed: rc=" ++ toString (1 : Int) ++ " stderr=" ++ pyStrip "lost connection") ∈ (run envW5 cfgW).logs
  ∧ (LogLevel.info, "Run finished.") ∈ (run envW5 cfgW).logs
  ∧ (run envW5 cfgW).tmpdirRemoved = true :=
  c5_scp_failure_nonfatal envW5 cfgW [] rfl rfl "" "" rfl 1 "" "lost connection" rfl (by decide)

/-- Claim C6: when the remote directory-creation command exits non-zero (and
enumeration and the write succeeded), a warning-level log entry is produced,
the "remote_mkdir_failed" note is appended, the run still exits successfully,
and the transfer step is not attempted at all: no invoked command in the
run's trace is an scp command. -/
theorem c6_mkdir_failure_skips_transfer (env : Env) (cfg : Config) (disks : List String)
    (hl : list_block_disks env.lsblk = .ok disks)
    (hw : env.writeOsError = none)
    (mrc : Int) (mso msE : String) (hm : env.sshMkdir = .completed mrc mso msE) (hmrc : mrc ≠ 0) :
    (LogLevel.warning, "Remote mkdir failed: rc=" ++ toString mrc ++ " stderr=" ++ pyStrip msE) ∈ (run env cfg).logs
  ∧ "remote_mkdir_failed" ∈ (run env cfg).notes
  ∧ (run env cfg).outcome = .ok ()
  ∧ ∀ argv t, ExtCall.proc argv t ∈ (run env cfg).trace → argv.head? ≠ some "scp" := by
  have hdel := deliver_mkdir_fail env cfg (runLocalPath env) mrc mso msE hm hmrc
  have hbody := runBody_eq env cfg (runPayload1 env disks) (runLocalPath env) (fun _ => none) hw
  rw [hdel] at hbody
  have hbo : (runBody env cfg (runPayload1 env disks) (runLocalPath env) (fun _ => none)).outcome = .ok () := by
    rw [hbody]
  have hrun := run_eq_ok env cfg disks hl hbo
  rw [hrun]
  refine ⟨?_, ?_, rfl, ?_⟩
  · rw [hbody]; simp
  · rw [hbody]; simp
  · intro argv t hmem
    rw [hbody] at hmem
    simp only [List.cons_append, List.mem_cons, List.mem_append, List.mem_map,
      List.mem_singleton, List.not_mem_nil, or_false, ExtCall.proc.injEq] at hmem
    rcases hmem with ⟨rfl, -⟩ | (⟨d, hd, rfl, -⟩ | ⟨rfl, -⟩)
    · decide
    · simp [smartctlArgs]
    · simp [mkdirCmd]

/-- Environment whose remote mkdir command exits non-zero. -/
def envW6 : Env :=
  { hostname := "h1", now := "2026-01-01T00:00:00Z", tmpdir := "/tmp/client_disk_w6",
    mounts := [], usage := fun _ => .permissionError,
    lsblk := .completed 0 "" "", smartctl := fun _ => .fileNotFound,
    sshMkdir := .completed 255 "" "Connection refused", scp := .completed 0 "" "",
    writeOsError := none }

/-- Witness for C6 on a concrete run with a failing remote mkdir. -/
theorem c6_witness :
    (LogLevel.warning, "Remote mkdir failed: rc=" ++ toString (255 : Int) ++ " stderr=" ++ pyStrip "Connection refused") ∈ (run envW6 cfgW).logs
  ∧ "remote_mkdir_failed" ∈ (run envW6 cfgW).notes
  ∧ (run envW6 cfgW).outcome = .ok () :=
  ⟨(c6_mkdir_failure_skips_transfer envW6 cfgW [] rfl rfl 255 "" "Connection refused" rfl (by decide)).1,
   (c6_mkdir_failure_skips_transfer envW6 cfgW [] rfl rfl 255 "" "Connection refused" rfl (by decide)).2.1,
   (c6_mkdir_failure_skips_transfer envW6 cfgW [] rfl rfl 255 "" "Connection refused" rfl (by decide)).2.2.1⟩

/-- Claim C7: whatever the environment and configuration, the document the
Durable Writer persisted can only carry the enumeration-phase note — the
delivery-outcome markers "scp_failed" and "remote_mkdir_failed" arise after
the write and are recorded only in the log stream and the in-memory notes,
never in the persisted report. -/
theorem c7_persisted_notes_frozen (env : Env) (cfg : Config) (p : Payload)
    (hp : (run env cfg).persisted = some p) :
    ("scp_failed" ∉ p.notes ∧ "remote_mkdir_failed" ∉ p.notes)
  ∧ ∀ n ∈ p.notes, n = enumEmptyNote := by
  cases hl : list_block_disks env.lsblk with
  | error e =>
    simp only [run, hl] at hp
    exact Option.noConfusion hp
  | ok disks =>
    simp only [run, hl] at hp
    have hp2 : (runBody env cfg (runPayload1 env disks) (runLocalPath env) (fun _ => none)).persisted = some p := by
      split at hp <;> exact hp
    cases hw : env.writeOsError with
    | some m =>
      simp only [runBody, hw] at hp2
      exact Option.noConfusion hp2
    | none =>
      rw [runBody_eq env cfg (runPayload1 env disks) (runLocalPath env) (fun _ => none) hw] at hp2
      have hpe : runPayload1 env disks = p := Option.some.inj hp2
      subst hpe
      by_cases hd : disks.isEmpty <;>
        simp [runPayload1, runPayload0, hd, enumEmptyNote]

/-- Environment for the C7 witness: a successful collection whose transfer
fails, so a delivery note exists in memory but not in the persisted file. -/
def envW7 : Env :=
  { hostname := "h1", now := "2026-01-01T00:00:00Z", tmpdir := "/tmp/client_disk_w7",
    mounts := [], usage := fun _ => .permissionError,
    lsblk := .completed 0 "" "", smartctl := fun _ => .fileNotFound,
    sshMkdir := .completed 0 "" "", scp := .completed 1 "" "lost connection",
    writeOsError := none }

/-- The document `run envW7 cfgW` persists. -/
def payloadW7 : Payload :=
  { collected_at := "2026-01-01T00:00:00Z", host := "h1", disk_partitions := [],
    smart := [], notes := [enumEmptyNote] }

/-- Witness for C7: on a concrete run with a failing transfer, the persisted
document carries no delivery-failure marker even though the in-memory notes
do. -/
theorem c7_witness :
    ("scp_failed" ∉ payloadW7.notes ∧ "remote_mkdir_failed" ∉ payloadW7.notes)
  ∧ "scp_failed" ∈ (run envW7 cfgW).notes :=
  ⟨(c7_persisted_notes_frozen envW7 cfgW payloadW7 rfl).1, by decide⟩

/-- Claim C8: on every exit path of the run in which the staging directory
was created — normal completion, recorded delivery failure, or an exception
raised by the write or by delivery — the staging directory is removed at run
end; the cleanup is unconditional. -/
theorem c8_staging_cleanup (env : Env) (cfg : Config)
    (hc : (run env cfg).tmpdirCreated = true) :
    (run env cfg).tmpdirRemoved = true := by
  cases hl : list_block_disks env.lsblk with
  | error e =>
    simp only [run, hl] at hc
    exact Bool.noConfusion hc
  | ok disks =>
    simp only [run, hl]
    split <;> rfl

/-- Environment for the C8 witness: the ssh binary is absent, so the
try-block raises — the staging directory is removed anyway. -/
def envW8 : Env :=
  { hostname := "h1", now := "2026-01-01T00:00:00Z", tmpdir := "/tmp/client_disk_w8",
    mounts := [], usage := fun _ => .permissionError,
    lsblk := .completed 0 "" "", smartctl := fun _ => .fileNotFound,
    sshMkdir := .fileNotFound, scp := .completed 0 "" "", writeOsError := none }

/-- Witness for C8 on a concrete run whose delivery raises. -/
theorem c8_witness : (run envW8 cfgW).tmpdirRemoved = true :=
  c8_staging_cleanup envW8 cfgW rfl

/-- Claim C9: every entry the partition-usage collector returns comes from a
mount point whose capacity query succeeded, corresponding to one of the raw
mounts; a mount whose query raises PermissionError contributes no entry of
any kind, so the returned sequence contains only mount points the process
could actually query. -/
theorem c9_denied_mounts_skipped (mounts : List RawMount) (query : String → UsageOutcome) :
    (∀ e ∈ collect_disk_usage mounts query,
       query e.mountpoint = .ok e.total e.used e.free e.percent
     ∧ ∃ m ∈ mounts, m.device = e.device ∧ m.mountpoint = e.mountpoint)
  ∧ (∀ m ∈ mounts, query m.mountpoint = .permissionError →
       ∀ e ∈ collect_disk_usage mounts query, e.mountpoint ≠ m.mountpoint) := by
  have h1 : ∀ e ∈ collect_disk_usage mounts query,
      query e.mountpoint = .ok e.total e.used e.free e.percent
    ∧ ∃ m ∈ mounts, m.device = e.device ∧ m.mountpoint = e.mountpoint := by
    intro e he
    rw [collect_disk_usage, List.mem_filterMap] at he
    obtain ⟨m, hm, hsome⟩ := he
    cases hq : query m.mountpoint with
    | permissionError => rw [hq] at hsome; cases hsome
    | ok t u f pc =>
      rw [hq] at hsome
      have he2 := Option.some.inj hsome
      subst he2
      exact ⟨hq, m, hm, rfl, rfl⟩
  refine ⟨h1, ?_⟩
  intro m hm hq e he heq
  have h2 := (h1 e he).1
  rw [heq, hq] at h2
  cases h2

/-- Raw mounts for the C9 witness: one readable, one permission-denied. -/
def mountsW9 : List RawMount :=
  [⟨"/dev/sda1", "/", "ext4", "rw"⟩, ⟨"/dev/sda2", "/restricted", "ext4", "rw"⟩]

/-- Capacity query for the C9 witness, denying the restricted mount. -/
def queryW9 : String → UsageOutcome :=
  fun mp => if mp = "/restricted" then .permissionError else .ok 100 40 60 40

/-- The single entry `collect_disk_usage mountsW9 queryW9` produces. -/
def entryW9 : PartitionUsage :=
  ⟨"/dev/sda1", "/", "ext4", "rw", 100, 40, 60, 40⟩

/-- Witness for C9: with one denied mount, the produced entry is only the
readable one, and it is not the denied mount point. -/
theorem c9_witness :
    queryW9 "/restricted" = UsageOutcome.permissionError
  ∧ entryW9 ∈ collect_disk_usage mountsW9 queryW9
  ∧ entryW9.mountpoint ≠ "/restricted" :=
  ⟨rfl, by decide,
   (c9_denied_mounts_skipped mountsW9 queryW9).2 ⟨"/dev/sda2", "/restricted", "ext4", "rw"⟩
     (by decide) rfl entryW9 (by decide)⟩

/-- Claim C10: if the ssh or scp executable itself is absent (the spawn
raises rather than the tool exiting non-zero), the exception is not caught
anywhere in the run: the run terminates with an error outcome — an uncaught
exception, hence a non-zero process exit — after the report was already
persisted; the staging directory is still removed; by contrast an absent
health-probe tool is handled per device without raising. -/
theorem c10_missing_transport_binary (env : Env) (cfg : Config) (disks : List String)
    (hl : list_block_disks env.lsblk = .ok disks)
    (hw : env.writeOsError = none) :
    (env.sshMkdir = .fileNotFound →
       (run env cfg).outcome = .error "FileNotFoundError: ssh"
     ∧ (run env cfg).persisted = some (runPayload1 env disks)
     ∧ (run env cfg).tmpdirRemoved = true)
  ∧ (∀ mso msE, env.sshMkdir = .completed 0 mso msE → env.scp = .fileNotFound →
       (run env cfg).outcome = .error "FileNotFoundError: scp"
     ∧ (run env cfg).persisted = some (runPayload1 env disks)
     ∧ (run env cfg).tmpdirRemoved = true)
  ∧ (∀ d, smart_check d SpawnOutcome.fileNotFound =
       SmartResult.errDict d "smartctl-not-installed") := by
  have hbody := runBody_eq env cfg (runPayload1 env disks) (runLocalPath env) (fun _ => none) hw
  refine ⟨?_, ?_, fun d => rfl⟩
  · intro hm
    have hdo : (deliver env cfg (runLocalPath env)).outcome = .error "FileNotFoundError: ssh" := by
      simp [deliver, hm]
    have hbo : (runBody env cfg (runPayload1 env disks) (runLocalPath env) (fun _ => none)).outcome =
        .error "FileNotFoundError: ssh" := by
      rw [hbody]; exact hdo
    have hrun := run_eq_err env cfg disks _ hl hbo
    rw [hrun]
    refine ⟨rfl, ?_, rfl⟩
    rw [hbody]
  · intro mso msE hm hs
    have hdo : (deliver env cfg (runLocalPath env)).outcome = .error "FileNotFoundError: scp" := by
      simp [deliver, hm, hs]
    have hbo : (runBody env cfg (runPayload1 env disks) (runLocalPath env) (fun _ => none)).outcome =
        .error "FileNotFoundError: scp" := by
      rw [hbody]; exact hdo
    have hrun := run_eq_err env cfg disks _ hl hbo
    rw [hrun]
    refine ⟨rfl, ?_, rfl⟩
    rw [hbody]

/-- Environment for the C10 witness: the ssh binary is absent. -/
def envW10 : Env :=
  { hostname := "h1", now := "2026-01-01T00:00:00Z", tmpdir := "/tmp/client_disk_w10",
    mounts := [], usage := fun _ => .permissionError,
    lsblk := .completed 0 "" "", smartctl := fun _ => .fileNotFound,
    sshMkdir := .fileNotFound, scp := .completed 0 "" "", writeOsError := none }

/-- Witness for C10 on a concrete run whose ssh binary is absent. -/
theorem c10_witness :
    (run envW10 cfgW).outcome = .error "FileNotFoundError: ssh"
  ∧ (run envW10 cfgW).persisted = some (runPayload1 envW10 [])
  ∧ (run envW10 cfgW).tmpdirRemoved = true :=
  (c10_missing_transport_binary envW10 cfgW [] rfl rfl).1 rfl
